import Mathlib

/-!
Shallow embedding of the privileged VPN session daemon of
ms-sso-openconnect: the request validator (`daemon/validator.py`), the
connect/disconnect/status/output command handlers and connection dispatch
(`daemon/server.py`), the process helpers (`daemon/platform.py`), and the
client transport-error classification (`daemon/client.py`).

Python strings are modelled as Lean `String` (both are sequences of
unicode code points, so `len` agrees with `String.length`).  Python
`re.match` with a pattern of the shape `^C+$` is modelled faithfully,
including the CPython semantics of `$`, which also matches just before a
single newline at the very end of the string.
-/

namespace MsSso

/- ### Character classes used by the validator regexes -/

/-- ASCII letter or digit, the class `[a-zA-Z0-9]`. -/
def isAlnumAscii (c : Char) : Bool :=
  (97 ≤ c.val && c.val ≤ 122) || (65 ≤ c.val && c.val ≤ 90) ||
    (48 ≤ c.val && c.val ≤ 57)

/-- The class `[-a-zA-Z0-9.]` of `RE_SERVER`'s middle characters. -/
def isServerMiddle (c : Char) : Bool :=
  c = '-' || isAlnumAscii c || c = '.'

/-- The class `[a-zA-Z0-9@._-]` of `RE_USERNAME`. -/
def isUsernameChar (c : Char) : Bool :=
  isAlnumAscii c || c = '@' || c = '.' || c = '_' || c = '-'

/-- The class `[a-zA-Z0-9:_-]` of `RE_USERGROUP`. -/
def isUsergroupChar (c : Char) : Bool :=
  isAlnumAscii c || c = ':' || c = '_' || c = '-'

/-- The class `[^\x00-\x1f]` of `RE_COOKIE`: anything but a C0 control
character.  Note that `;` and `,` are in this class. -/
def isCookieChar (c : Char) : Bool :=
  !(c.val ≤ 0x1f)

/- ### Regex matching, with CPython `$` semantics -/

/-- Recognizer of `C+` for a character class `P` (one or more). -/
def plusCore (P : Char → Bool) (l : List Char) : Bool :=
  !l.isEmpty && l.all P

/-- Recognizer of the full pattern of `RE_SERVER`,
`[a-zA-Z0-9][-a-zA-Z0-9.]*[a-zA-Z0-9]`, on an exact character list:
first and last characters alphanumeric, middle characters from the
middle class. -/
def serverTail : List Char → Bool
  | [] => false
  | [c] => isAlnumAscii c
  | c :: rest => isServerMiddle c && serverTail rest

def serverCore : List Char → Bool
  | [] => false
  | c :: rest => isAlnumAscii c && serverTail rest

/-- `RE.match(s)` for an anchored pattern `^core$` under CPython
semantics: `$` matches at the end of the string, or just before a
newline that is the last character. -/
def pyDollarMatch (core : List Char → Bool) (s : String) : Bool :=
  core s.data ||
    (match s.data.getLast? with
     | some c => decide (c = '\n') && core s.data.dropLast
     | none => false)

/-- `RE_SERVER.match`. -/
def reServerMatch (s : String) : Bool := pyDollarMatch serverCore s

/-- `RE_USERNAME.match`. -/
def reUsernameMatch (s : String) : Bool :=
  pyDollarMatch (plusCore isUsernameChar) s

/-- `RE_USERGROUP.match`. -/
def reUsergroupMatch (s : String) : Bool :=
  pyDollarMatch (plusCore isUsergroupChar) s

/-- `RE_COOKIE.match`: pattern `^[^\x00-\x1f]+$`. -/
def reCookieMatch (s : String) : Bool :=
  pyDollarMatch (plusCore isCookieChar) s

/- ### Requests -/

/-- A decoded request object.  Absent JSON keys are `none`; `no_dtls`
is read only for its truthiness. -/
structure RawRequest where
  command : Option String
  server : Option String
  protocol : Option String
  cookie : Option String
  username : Option String
  usergroup : Option String
  no_dtls : Bool
deriving DecidableEq

def MAX_SERVER_LEN : Nat := 253
def MAX_USERNAME_LEN : Nat := 254
def MAX_USERGROUP_LEN : Nat := 128
def MAX_COOKIE_LEN : Nat := 65536

def VALID_COMMANDS : List String := ["connect", "disconnect", "status", "output"]
def VALID_PROTOCOLS : List String := ["anyconnect", "gp"]

/-- `validator.validate_request`.  Returns `(true, none)` when the
request is accepted and `(false, some reason)` otherwise, mirroring the
Python control flow (including the duplicated inner cookie re-check,
which collapses to the same verdict because the dict is unchanged). -/
def validate_request (r : RawRequest) : Bool × Option String :=
  match r.command with
  | none => (false, some "Invalid command: None")
  | some c =>
    if c = "" || !(VALID_COMMANDS.contains c) then
      (false, some ("Invalid command: " ++ c))
    else if c = "connect" then
      let server := r.server.getD ""
      if server = "" then (false, some "Missing 'server' parameter")
      else if server.length > MAX_SERVER_LEN || !(reServerMatch server) then
        (false, some "Invalid server format")
      else
        let protocol := r.protocol.getD "anyconnect"
        if !(VALID_PROTOCOLS.contains protocol) then
          (false, some "Invalid protocol")
        else
          let cookie := r.cookie.getD ""
          if cookie = "" then (false, some "Missing 'cookie' parameter")
          else if cookie.length > MAX_COOKIE_LEN || !(reCookieMatch cookie) then
            let cookie2 := r.cookie.getD ""
            if cookie2 = "" then (false, some "Missing 'cookie' parameter")
            else if cookie2.length > MAX_COOKIE_LEN || !(reCookieMatch cookie2) then
              (false, some "Invalid cookie format")
            else
              (false, some "Invalid cookie format")
          else
            let username := r.username.getD ""
            if username ≠ "" &&
                (username.length > MAX_USERNAME_LEN || !(reUsernameMatch username)) then
              (false, some "Invalid username format")
            else
              let usergroup := r.usergroup.getD ""
              if usergroup ≠ "" &&
                  (usergroup.length > MAX_USERGROUP_LEN || !(reUsergroupMatch usergroup)) then
                (false, some "Invalid usergroup format")
              else
                (true, none)
    else
      (true, none)

/- ### Daemon session state and system environment -/

/-- The daemon's handle on a child process: its pid, and whether
`poll()` currently returns `None` (the child is alive). -/
structure Proc where
  pid : Nat
  alive : Bool
deriving DecidableEq

/-- The mutable state of `VPNDaemon` relevant to the command handlers:
`_vpn_process`, the contents of the pid file (`none` when the file does
not exist or does not parse as an integer), and `_output_lines`. -/
structure DaemonState where
  vpnProcess : Option Proc
  pidFile : Option Nat
  outputLines : List String
deriving DecidableEq

/-- One observation of the child per iteration of the connect grace
loop: whether `poll()` reported an exit, and the accumulated
`_output_lines` at that instant. -/
structure Obs where
  exited : Bool
  output : List String
deriving DecidableEq

/-- The system facts the handlers consult: the result of
`find_openconnect` (exact-name process lookup), `is_process_running`,
the result of `kill_process`, whether `subprocess.Popen` succeeds (and
with which child pid), and the trace of per-second observations of a
freshly spawned child. -/
structure SysEnv where
  external : Option Nat
  isRunning : Nat → Bool
  kill : Nat → Bool
  spawn : Option Nat
  trace : List Obs

/-- A response object.  Only the fields the handlers actually set are
modelled; exactly the meaningful ones are `some`. -/
structure Response where
  success : Bool
  error : Option String
  pid : Option Nat
  connected : Option Bool
  lines : Option (List String)
deriving DecidableEq

def Response.fail (e : String) : Response := ⟨false, some e, none, none, none⟩

def Response.okPid (p : Nat) : Response := ⟨true, none, some p, none, none⟩

/- ### Output-marker scanning -/

/-- `"\n".join(lines)`. -/
def joinLines (ls : List String) : String := String.intercalate "\n" ls

/-- `l[-n:]`: the last `n` elements (all of them when fewer). -/
def lastN (n : Nat) (l : List α) : List α := l.drop (l.length - n)

/-- Whether `n` occurs at the start of `h`. -/
def startsWithL : List Char → List Char → Bool
  | [], _ => true
  | _ :: _, [] => false
  | a :: as, b :: bs => a = b && startsWithL as bs

/-- Whether `n` occurs contiguously anywhere in `h` (Python `in`). -/
def containsSeq (n : List Char) : List Char → Bool
  | [] => n.isEmpty
  | b :: bs => startsWithL n (b :: bs) || containsSeq n bs

/-- Python `needle in hay` on strings. -/
def strContains (hay needle : String) : Bool := containsSeq needle.data hay.data

/-- Python `str.lower` restricted to ASCII, the alphabet of all the
markers that are searched for. -/
def lowerStr (s : String) : String := String.mk (s.data.map Char.toLower)

/-- The success markers of `_cmd_connect`. -/
def hasSuccessMarker (out : String) : Bool :=
  strContains out "Connected as" || strContains out "ESP session established" ||
    strContains out "DTLS connected"

/-- The authentication-failure markers of `_cmd_connect` (searched in
the lowercased output). -/
def hasAuthMarker (out : String) : Bool :=
  strContains (lowerStr out) "authentication failed" ||
    strContains (lowerStr out) "cookie rejected"

/- ### The connect grace-window poll loop -/

inductive PollResult where
  | died (tail : List String)
  | established
  | authFailed
  | timedOut
deriving DecidableEq

/-- One iteration of the grace loop, in the source's order: the exit
check runs first, then the success markers, then the auth markers. -/
def stepObs (o : Obs) : Option PollResult :=
  if o.exited then some (.died (lastN 10 o.output))
  else
    let out := joinLines o.output
    if hasSuccessMarker out then some .established
    else if hasAuthMarker out then some .authFailed
    else none

/-- The verdict of the grace loop over a list of observations; an
exhausted list is the 15-second timeout. -/
def pollRes : List Obs → PollResult
  | [] => .timedOut
  | o :: rest =>
    match stepObs o with
    | some r => r
    | none => pollRes rest

/-- The `_output_lines` contents at the moment the grace loop returns. -/
def pollOut : List Obs → List String → List String
  | [], acc => acc
  | o :: rest, _ =>
    match stepObs o with
    | some _ => o.output
    | none => pollOut rest o.output

/- ### Subprocess argv construction -/

/-- The argv built by `_cmd_connect` from already-extracted fields. -/
def buildCmd (r : RawRequest) (server protocol cookie : String) : List String :=
  let base := ["openconnect", "--verbose", "--protocol=" ++ protocol]
  let base := base ++ (if r.no_dtls then ["--no-dtls"] else [])
  if protocol = "gp" then
    base ++ ["--os=linux-64", "--useragent=PAN GlobalProtect"]
      ++ (match r.username with
          | some u => if u ≠ "" then ["--user=" ++ u] else []
          | none => [])
      ++ (match r.usergroup with
          | some g => if g ≠ "" then ["--usergroup=" ++ g] else []
          | none => [])
      ++ ["--passwd-on-stdin", server]
  else
    base ++ (match r.username with
             | some u => if u ≠ "" then ["--user=" ++ u] else []
             | none => [])
      ++ ["--cookie=" ++ cookie, server]

/- ### Command handlers -/

/-- The guard `self._vpn_process and self._vpn_process.poll() is None`. -/
def trackedAlive (st : DaemonState) : Bool :=
  match st.vpnProcess with
  | some p => p.alive
  | none => false

/-- `VPNDaemon._cmd_connect`.  Returns the response, the state after
the handler, and whether a child process was spawned. -/
def cmdConnect (st : DaemonState) (env : SysEnv) (r : RawRequest) :
    Response × DaemonState × Bool :=
  if trackedAlive st then (Response.fail "Already connected", st, false)
  else
    match env.external with
    | some epid =>
      (Response.fail ("OpenConnect already running (PID " ++ toString epid ++ ")"),
        st, false)
    | none =>
      let server := r.server.getD ""
      let cookie := r.cookie.getD ""
      if server = "" then (Response.fail "Missing 'server' parameter", st, false)
      else if cookie = "" then (Response.fail "Missing 'cookie' parameter", st, false)
      else
        let protocol := r.protocol.getD "anyconnect"
        let _argv := buildCmd r server protocol cookie
        match env.spawn with
        | none =>
          (Response.fail "openconnect not found in PATH",
            { st with outputLines := [] }, false)
        | some p =>
          let os := env.trace.take 15
          let out := pollOut os []
          match pollRes os with
          | .died tail =>
            (Response.fail ("OpenConnect failed: " ++ joinLines tail),
              ⟨none, none, out⟩, true)
          | .established => (Response.okPid p, ⟨some ⟨p, true⟩, some p, out⟩, true)
          | .authFailed =>
            (Response.fail "Authentication failed", ⟨some ⟨p, true⟩, some p, out⟩, true)
          | .timedOut => (Response.okPid p, ⟨some ⟨p, true⟩, some p, out⟩, true)

/-- The pid-resolution cascade of `_cmd_disconnect`: the live in-memory
handle, else the pid file entry when that process is still running,
else a system-wide exact-name lookup. -/
def resolvePid (st : DaemonState) (env : SysEnv) : Option Nat :=
  let fromOwn : Option Nat :=
    match st.vpnProcess with
    | some p => if p.alive then some p.pid else none
    | none => none
  let fromFile : Option Nat :=
    match fromOwn with
    | some p => some p
    | none =>
      match st.pidFile with
      | some fp => if env.isRunning fp then some fp else none
      | none => none
  match fromFile with
  | some p => some p
  | none => env.external

/-- `VPNDaemon._cmd_disconnect`. -/
def cmdDisconnect (st : DaemonState) (env : SysEnv) : Response × DaemonState :=
  match resolvePid st env with
  | none => (Response.fail "Not connected", st)
  | some p =>
    let ok := env.kill p
    let st' : DaemonState := { st with vpnProcess := none, pidFile := none }
    if ok then (⟨true, none, none, none, none⟩, st')
    else (Response.fail "Failed to stop process", st')

/-- `VPNDaemon._cmd_status` (the `info` sub-map is not modelled). -/
def cmdStatus (st : DaemonState) (env : SysEnv) : Response × DaemonState :=
  if trackedAlive st then
    (⟨true, none, st.vpnProcess.map Proc.pid, some true, none⟩, st)
  else
    let (filePid, st1) :=
      match st.pidFile with
      | some fp =>
        if env.isRunning fp then (some fp, st)
        else (none, { st with pidFile := none })
      | none => (none, st)
    match filePid with
    | some fp => (⟨true, none, some fp, some true, none⟩, st1)
    | none =>
      match env.external with
      | some e => (⟨true, none, some e, some true, none⟩, st1)
      | none => (⟨true, none, none, some false, none⟩, st1)

/-- `VPNDaemon._cmd_output`. -/
def cmdOutput (st : DaemonState) : Response :=
  ⟨true, none, none, none, some (lastN 50 st.outputLines)⟩

/- ### Per-connection dispatch -/

/-- The observable synchronization events of `_handle_connection`. -/
inductive Ev where
  | acquireLock
  | releaseLock
  | dispatch (cmd : String)
  | send
deriving DecidableEq

/-- The command dispatch inside the `with self._lock:` block. -/
def dispatchCmd (c : String) (st : DaemonState) (env : SysEnv) (r : RawRequest) :
    Response × DaemonState × Bool :=
  if c = "connect" then cmdConnect st env r
  else if c = "disconnect" then
    let (resp, st') := cmdDisconnect st env
    (resp, st', false)
  else if c = "status" then
    let (resp, st') := cmdStatus st env
    (resp, st', false)
  else
    (cmdOutput st, st, false)

/-- `VPNDaemon._handle_connection` on one decoded request: validate,
then dispatch under the single daemon lock, then send the response.
Returns the response, the new state, whether a child was spawned, and
the event trace.  Every command, including `status` and `output`, is
dispatched between `acquireLock` and `releaseLock`. -/
def handleConnection (st : DaemonState) (env : SysEnv) (r : RawRequest) :
    Response × DaemonState × Bool × List Ev :=
  match validate_request r with
  | (false, e) => (⟨false, e, none, none, none⟩, st, false, [Ev.send])
  | (true, _) =>
    let c := r.command.getD ""
    let (resp, st', sp) := dispatchCmd c st env r
    (resp, st', sp, [Ev.acquireLock, Ev.dispatch c, Ev.releaseLock, Ev.send])

/- ### platform.kill_process -/

/-- The signals `kill_process` can send to the target. -/
inductive Sig where
  | term
  | kill
deriving DecidableEq

/-- How the target process behaves: whether `psutil.Process(pid)`
finds it at all, and whether it exits within the timeout after the
graceful `terminate()` (SIGTERM). -/
structure KillBehavior where
  present : Bool
  diesOnTermWithin : Bool
deriving DecidableEq

/-- `platform.kill_process`, instrumented with the list of signals it
sends.  `proc.kill()` (SIGKILL) is commented out in the source; on
`TimeoutExpired` the function returns `False` having sent only the
graceful SIGTERM. -/
def kill_process (b : KillBehavior) : Bool × List Sig :=
  if !b.present then (true, [])
  else if b.diesOnTermWithin then (true, [Sig.term])
  else (false, [Sig.term])

/- ### client.DaemonClient._send error classification -/

/-- The transport-level failures `_send` can hit. -/
inductive SendFailure where
  | fileNotFound
  | connectionRefused
  | otherConnect (msg : String)
  | sockTimeout
  | jsonDecodeError (msg : String)
  | otherComm (msg : String)
deriving DecidableEq

/-- The Python exception types `_send` raises.  `DaemonNotRunning` is a
subclass of `DaemonError`; these are the only two types. -/
inductive PyExcType where
  | daemonNotRunning
  | daemonError
deriving DecidableEq

/-- The typed error and message `_send` raises for each transport
failure. -/
def classifySendError : SendFailure → PyExcType × String
  | .fileNotFound =>
    (.daemonNotRunning, "Daemon not running. Start with: sudo ms-sso-openconnect-daemon")
  | .connectionRefused =>
    (.daemonNotRunning, "Daemon not responding. Restart with: sudo ms-sso-openconnect-daemon")
  | .otherConnect m => (.daemonError, "Cannot connect to daemon: " ++ m)
  | .sockTimeout => (.daemonError, "Timeout waiting for daemon response")
  | .jsonDecodeError m => (.daemonError, "Invalid response from daemon: " ++ m)
  | .otherComm m => (.daemonError, "Communication error: " ++ m)

/- ### Concrete fixtures for witnesses and counterexamples -/

/-- A daemon with no tracked child, no pid file, empty ring. -/
def idleState : DaemonState := ⟨none, none, []⟩

/-- A daemon tracking a live child with pid 7. -/
def busyState : DaemonState := ⟨some ⟨7, true⟩, some 7, []⟩

/-- A daemon with no handle and a stale pid file entry 1234. -/
def staleState : DaemonState := ⟨none, some 1234, []⟩

/-- No external process, spawn succeeds with pid 42, no observations
(the grace window elapses quietly). -/
def quietEnv : SysEnv := ⟨none, fun _ => false, fun _ => false, some 42, []⟩

/-- Environment in which no process exists and every kill succeeds
trivially; used with `staleState`. -/
def staleEnv : SysEnv := ⟨none, fun _ => false, fun _ => true, none, []⟩

/-- Environment whose target processes never die: `kill` reports
failure. -/
def stubbornEnv : SysEnv := ⟨none, fun _ => true, fun _ => false, none, []⟩

/-- Spawn succeeds with pid 42 and the first observation carries a
success marker. -/
def establishedEnv : SysEnv :=
  ⟨none, fun _ => false, fun _ => false, some 42,
    [⟨false, ["Connected as 10.0.0.1, using SSL"]⟩]⟩

/-- Spawn succeeds with pid 42 and the first observation carries an
authentication-failure marker. -/
def authFailEnv : SysEnv :=
  ⟨none, fun _ => false, fun _ => false, some 42,
    [⟨false, ["Login failed: Authentication failed."]⟩]⟩

/-- Spawn succeeds with pid 42 and the child exits at the first
observation. -/
def earlyExitEnv : SysEnv :=
  ⟨none, fun _ => false, fun _ => false, some 42,
    [⟨true, ["Failed to open HTTPS connection to vpn.example.com"]⟩]⟩

/-- A well-formed connect request. -/
def connectReq : RawRequest :=
  ⟨some "connect", some "vpn.example.com", some "anyconnect",
    some "webvpn=abc123", none, none, false⟩

/-- A connect request whose cookie contains the `;` delimiter. -/
def semicolonReq : RawRequest :=
  ⟨some "connect", some "vpn.example.com", some "anyconnect",
    some "a;b", none, none, false⟩

/-- A connect request whose cookie ends with the C0 control byte
`\n`. -/
def newlineCookieReq : RawRequest :=
  ⟨some "connect", some "vpn.example.com", some "anyconnect",
    some "ab\n", none, none, false⟩

/-- A bare status request. -/
def statusReq : RawRequest :=
  ⟨some "status", none, none, none, none, none, false⟩

/-- A bare output request. -/
def outputReq : RawRequest :=
  ⟨some "output", none, none, none, none, none, false⟩

/- ### Helper lemmas -/

/-- Observations on which `stepObs` fires no verdict are skipped by the
poll loop. -/
theorem pollRes_append (pre rest : List Obs)
    (h : ∀ o ∈ pre, stepObs o = none) :
    pollRes (pre ++ rest) = pollRes rest := by
  induction pre with
  | nil => rfl
  | cons o os ih =>
    have ho := h o (by simp)
    rw [List.cons_append]
    simp only [pollRes, ho]
    exact ih fun q hq => h q (by simp [hq])

/-- A trace with no verdict at all times out. -/
theorem pollRes_clean (l : List Obs) (h : ∀ o ∈ l, stepObs o = none) :
    pollRes l = .timedOut := by
  have := pollRes_append l [] h
  simpa using this

/-- Under the preconditions that let `_cmd_connect` reach the spawn
(no tracked live child, no external process, nonempty server and
cookie, successful spawn), the handler's result is determined by the
verdict of the poll loop on the first 15 observations. -/
theorem cmdConnect_poll (st : DaemonState) (env : SysEnv) (r : RawRequest)
    (p : Nat)
    (hT : trackedAlive st = false) (hE : env.external = none)
    (hS : r.server.getD "" ≠ "") (hC : r.cookie.getD "" ≠ "")
    (hP : env.spawn = some p) :
    cmdConnect st env r =
      (match pollRes (env.trace.take 15) with
       | .died tail =>
         (Response.fail ("OpenConnect failed: " ++ joinLines tail),
           (⟨none, none, pollOut (env.trace.take 15) []⟩ : DaemonState), true)
       | .established =>
         (Response.okPid p,
           (⟨some ⟨p, true⟩, some p, pollOut (env.trace.take 15) []⟩ : DaemonState), true)
       | .authFailed =>
         (Response.fail "Authentication failed",
           (⟨some ⟨p, true⟩, some p, pollOut (env.trace.take 15) []⟩ : DaemonState), true)
       | .timedOut =>
         (Response.okPid p,
           (⟨some ⟨p, true⟩, some p, pollOut (env.trace.take 15) []⟩ : DaemonState), true)) := by
  unfold cmdConnect
  rw [hE, hP]
  simp only [hT, Bool.false_eq_true, if_false, if_neg hS, if_neg hC]

/- ### Claim theorems -/

/-- Claim C1 (code evaluation at the failing inputs): cookie validation
does NOT reject the delimiter `;` (the `RE_COOKIE` pattern excludes
only `\x00`-`\x1f`), and a cookie ending in the C0 control byte `\n`
is also accepted (CPython `$` matches before a trailing newline); in
both cases the connect request passes validation and is dispatched to
the subprocess-spawning handler. -/
theorem c1_cookie_delimiters_accepted :
    validate_request semicolonReq = (true, none) ∧
    validate_request newlineCookieReq = (true, none) ∧
    Ev.dispatch "connect" ∈ (handleConnection idleState quietEnv semicolonReq).2.2.2 := by
  decide

/-- Claim C2: a connect request while the daemon tracks a live child,
or while an openconnect process is discoverable by exact name, returns
`success=false` with an already-active error and spawns nothing. -/
theorem c2_singleton_tunnel (st : DaemonState) (env : SysEnv) (r : RawRequest)
    (h : trackedAlive st = true ∨ env.external.isSome = true) :
    (cmdConnect st env r).1.success = false ∧
    (cmdConnect st env r).2.2 = false ∧
    ((cmdConnect st env r).1.error = some "Already connected" ∨
      ∃ e, env.external = some e ∧
        (cmdConnect st env r).1.error =
          some ("OpenConnect already running (PID " ++ toString e ++ ")")) := by
  cases h with
  | inl ht => simp [cmdConnect, ht, Response.fail]
  | inr hex =>
    rcases he : env.external with _ | e
    · rw [he] at hex; simp at hex
    · by_cases ht : trackedAlive st
      · simp [cmdConnect, ht, Response.fail]
      · simp only [Bool.not_eq_true] at ht
        refine ⟨?_, ?_, Or.inr ⟨e, rfl, ?_⟩⟩ <;>
          simp [cmdConnect, ht, he, Response.fail]

theorem c2_singleton_tunnel_witness :
    (cmdConnect busyState quietEnv connectReq).1.success = false ∧
    (cmdConnect busyState quietEnv connectReq).2.2 = false ∧
    ((cmdConnect busyState quietEnv connectReq).1.error = some "Already connected" ∨
      ∃ e, quietEnv.external = some e ∧
        (cmdConnect busyState quietEnv connectReq).1.error =
          some ("OpenConnect already running (PID " ++ toString e ++ ")")) :=
  c2_singleton_tunnel busyState quietEnv connectReq (Or.inl rfl)

/-- Claim C3 (code evaluation at the failing input): on a process that
ignores the graceful SIGTERM for the whole timeout, `kill_process`
returns `False` having sent only SIGTERM — the forceful SIGKILL
escalation promised by its own docstring is never sent (`proc.kill()`
is commented out). -/
theorem c3_kill_process_never_escalates :
    kill_process ⟨true, false⟩ = (false, [Sig.term]) ∧
    Sig.kill ∉ (kill_process ⟨true, false⟩).2 := by
  decide

/-- Claim C4 counterexample: a status (and an output) request IS
dispatched between `acquireLock` and `releaseLock` of the single
daemon lock — the same lock that serializes connect/disconnect — so it
is not served without acquiring that lock. -/
theorem c4_status_acquires_lock_counterexample :
    Ev.acquireLock ∈ (handleConnection idleState quietEnv statusReq).2.2.2 ∧
    Ev.acquireLock ∈ (handleConnection idleState quietEnv outputReq).2.2.2 := by
  decide

/-- Claim C4 amended: every valid status or output request is
dispatched while holding the single daemon lock (the same lock
connect/disconnect hold), so such a request arriving while a connect
or disconnect is in flight blocks until that transition releases the
lock rather than being answered concurrently. -/
theorem c4_status_output_dispatch_under_lock (st : DaemonState) (env : SysEnv)
    (r : RawRequest)
    (h : r.command = some "status" ∨ r.command = some "output") :
    (handleConnection st env r).2.2.2 =
      [Ev.acquireLock, Ev.dispatch (r.command.getD ""), Ev.releaseLock, Ev.send] := by
  have hv : validate_request r = (true, none) := by
    cases h with
    | inl h => unfold validate_request; rw [h]; rfl
    | inr h => unfold validate_request; rw [h]; rfl
  unfold handleConnection
  rw [hv]

theorem c4_status_output_dispatch_under_lock_witness :
    (handleConnection idleState quietEnv statusReq).2.2.2 =
      [Ev.acquireLock, Ev.dispatch (statusReq.command.getD ""), Ev.releaseLock,
        Ev.send] :=
  c4_status_output_dispatch_under_lock idleState quietEnv statusReq (Or.inl rfl)

/-- Claim C6 counterexample: a disconnect with no in-memory handle, a
pid file naming a dead process, and no discoverable openconnect
process returns `success=false` with a "Not connected" error — not a
successful response. -/
theorem c6_stale_pidfile_counterexample :
    (cmdDisconnect staleState staleEnv).1.success = false ∧
    (cmdDisconnect staleState staleEnv).1.error = some "Not connected" := by
  decide

/-- Claim C6 amended: a disconnect issued when the pid file exists but
the recorded process is dead, with no in-memory handle and no
openconnect process discoverable by name, resolves no target pid and
returns `success=false` with the "Not connected" error, leaving the
state (including the stale pid file) unchanged. -/
theorem c6_stale_pidfile_not_connected (st : DaemonState) (env : SysEnv)
    (h1 : trackedAlive st = false)
    (h2 : ∀ fp, st.pidFile = some fp → env.isRunning fp = false)
    (h3 : env.external = none) :
    cmdDisconnect st env = (Response.fail "Not connected", st) := by
  have hres : resolvePid st env = none := by
    unfold resolvePid
    rcases hv : st.vpnProcess with _ | q
    · rcases hf : st.pidFile with _ | fp
      · simp [h3]
      · simp [h2 fp hf, h3]
    · have hq : q.alive = false := by
        have h1' := h1
        unfold trackedAlive at h1'
        rw [hv] at h1'
        exact h1'
      rcases hf : st.pidFile with _ | fp
      · simp [hq, h3]
      · simp [hq, h2 fp hf, h3]
  unfold cmdDisconnect
  rw [hres]

theorem c6_stale_pidfile_not_connected_witness :
    cmdDisconnect staleState staleEnv = (Response.fail "Not connected", staleState) :=
  c6_stale_pidfile_not_connected staleState staleEnv rfl
    (fun _ _ => rfl) rfl

/-- Claim C8 counterexample: the socket-missing and connection-refused
failures are raised with the SAME typed error (`DaemonNotRunning`), so
the three failure situations are not three distinct error kinds. -/
theorem c8_error_type_counterexample :
    (classifySendError .fileNotFound).1 = (classifySendError .connectionRefused).1 := by
  decide

/-- Claim C8 amended: `_send` separates the failures into two typed
kinds, not three: socket-path-missing and connection-refused both
raise `DaemonNotRunning` (distinguished only by their message text),
while timeout and parse failures raise the base `DaemonError`; a
caller can tell daemon-absent-or-crashed from transport errors by
type, but telling never-started from crashed requires the message. -/
theorem c8_two_error_kinds :
    (classifySendError .fileNotFound).1 = PyExcType.daemonNotRunning ∧
    (classifySendError .connectionRefused).1 = PyExcType.daemonNotRunning ∧
    (classifySendError .fileNotFound).2 ≠ (classifySendError .connectionRefused).2 ∧
    (classifySendError .sockTimeout).1 = PyExcType.daemonError ∧
    (classifySendError (.jsonDecodeError "x")).1 = PyExcType.daemonError ∧
    (classifySendError (.otherComm "x")).1 = PyExcType.daemonError := by
  decide

/-- Claim C5: during the 15-iteration grace window, the connect
handler returns (in iteration order) failure with the tail of captured
output when the child exits before any marker fires, immediate success
with the pid once a success marker appears, an
authentication-rejected failure when an auth marker appears, and
success with the pid when the window elapses with no verdict. -/
theorem c5_grace_window (st : DaemonState) (env : SysEnv) (r : RawRequest)
    (p : Nat)
    (hT : trackedAlive st = false) (hE : env.external = none)
    (hS : r.server.getD "" ≠ "") (hC : r.cookie.getD "" ≠ "")
    (hP : env.spawn = some p) :
    (∀ pre o rest, env.trace.take 15 = pre ++ o :: rest →
        (∀ q ∈ pre, stepObs q = none) → o.exited = true →
        (cmdConnect st env r).1 =
          Response.fail ("OpenConnect failed: " ++ joinLines (lastN 10 o.output)) ∧
        (cmdConnect st env r).2.1.vpnProcess = none ∧
        (cmdConnect st env r).2.1.pidFile = none) ∧
    (∀ pre o rest, env.trace.take 15 = pre ++ o :: rest →
        (∀ q ∈ pre, stepObs q = none) → o.exited = false →
        hasSuccessMarker (joinLines o.output) = true →
        (cmdConnect st env r).1 = Response.okPid p) ∧
    (∀ pre o rest, env.trace.take 15 = pre ++ o :: rest →
        (∀ q ∈ pre, stepObs q = none) → o.exited = false →
        hasSuccessMarker (joinLines o.output) = false →
        hasAuthMarker (joinLines o.output) = true →
        (cmdConnect st env r).1 = Response.fail "Authentication failed") ∧
    ((∀ q ∈ env.trace.take 15, stepObs q = none) →
        (cmdConnect st env r).1 = Response.okPid p) := by
  have hred := cmdConnect_poll st env r p hT hE hS hC hP
  refine ⟨?_, ?_, ?_, ?_⟩
  · intro pre o rest hsplit hclean hexit
    have hpoll : pollRes (env.trace.take 15) = .died (lastN 10 o.output) := by
      rw [hsplit, pollRes_append pre _ hclean]
      simp [pollRes, stepObs, hexit]
    rw [hred, hpoll]
    exact ⟨rfl, rfl, rfl⟩
  · intro pre o rest hsplit hclean hexit hsucc
    have hpoll : pollRes (env.trace.take 15) = .established := by
      rw [hsplit, pollRes_append pre _ hclean]
      simp [pollRes, stepObs, hexit, hsucc]
    rw [hred, hpoll]
  · intro pre o rest hsplit hclean hexit hsucc hauth
    have hpoll : pollRes (env.trace.take 15) = .authFailed := by
      rw [hsplit, pollRes_append pre _ hclean]
      simp [pollRes, stepObs, hexit, hsucc, hauth]
    rw [hred, hpoll]
  · intro hall
    rw [hred, pollRes_clean _ hall]

theorem c5_grace_window_witness :
    (cmdConnect idleState establishedEnv connectReq).1 = Response.okPid 42 ∧
    (cmdConnect idleState authFailEnv connectReq).1 =
      Response.fail "Authentication failed" ∧
    (cmdConnect idleState earlyExitEnv connectReq).1 =
      Response.fail ("OpenConnect failed: " ++
        joinLines (lastN 10 ["Failed to open HTTPS connection to vpn.example.com"])) ∧
    (cmdConnect idleState quietEnv connectReq).1 = Response.okPid 42 := by
  refine ⟨?_, ?_, ?_, ?_⟩
  · exact (c5_grace_window idleState establishedEnv connectReq 42 rfl rfl
      (by decide) (by decide) rfl).2.1
      [] ⟨false, ["Connected as 10.0.0.1, using SSL"]⟩ [] rfl
      (by intro q hq; simp at hq) rfl (by decide)
  · exact (c5_grace_window idleState authFailEnv connectReq 42 rfl rfl
      (by decide) (by decide) rfl).2.2.1
      [] ⟨false, ["Login failed: Authentication failed."]⟩ [] rfl
      (by intro q hq; simp at hq) rfl (by decide) (by decide)
  · exact ((c5_grace_window idleState earlyExitEnv connectReq 42 rfl rfl
      (by decide) (by decide) rfl).1
      [] ⟨true, ["Failed to open HTTPS connection to vpn.example.com"]⟩ [] rfl
      (by intro q hq; simp at hq) rfl).1
  · exact (c5_grace_window idleState quietEnv connectReq 42 rfl rfl
      (by decide) (by decide) rfl).2.2.2
      (by intro q hq; simp [quietEnv] at hq)

/-- Claim C9: when the grace loop ends in the authentication-failure
verdict, the handler reports the failure but neither kills the child
nor clears the in-memory handle, so every later connect returns
"Already connected" without spawning, until a disconnect clears the
handle. -/
theorem c9_auth_failure_keeps_handle (st : DaemonState) (env : SysEnv)
    (r : RawRequest) (p : Nat)
    (hT : trackedAlive st = false) (hE : env.external = none)
    (hS : r.server.getD "" ≠ "") (hC : r.cookie.getD "" ≠ "")
    (hP : env.spawn = some p)
    (hA : pollRes (env.trace.take 15) = .authFailed) :
    (cmdConnect st env r).1 = Response.fail "Authentication failed" ∧
    (cmdConnect st env r).2.1.vpnProcess = some ⟨p, true⟩ ∧
    (∀ r2 env2,
      (cmdConnect (cmdConnect st env r).2.1 env2 r2).1 =
        Response.fail "Already connected" ∧
      (cmdConnect (cmdConnect st env r).2.1 env2 r2).2.2 = false) ∧
    (∀ env3, (cmdDisconnect (cmdConnect st env r).2.1 env3).2.vpnProcess = none) := by
  have hred := cmdConnect_poll st env r p hT hE hS hC hP
  rw [hred, hA]
  refine ⟨rfl, rfl, ?_, ?_⟩
  · intro r2 env2
    constructor <;> simp [cmdConnect, trackedAlive, Response.fail]
  · intro env3
    by_cases hk : env3.kill p <;> simp [cmdDisconnect, resolvePid, hk]

theorem c9_auth_failure_keeps_handle_witness :
    (cmdConnect idleState authFailEnv connectReq).1 =
      Response.fail "Authentication failed" ∧
    (cmdConnect idleState authFailEnv connectReq).2.1.vpnProcess =
      some ⟨42, true⟩ ∧
    (∀ r2 env2,
      (cmdConnect (cmdConnect idleState authFailEnv connectReq).2.1 env2 r2).1 =
        Response.fail "Already connected" ∧
      (cmdConnect (cmdConnect idleState authFailEnv connectReq).2.1 env2 r2).2.2 =
        false) ∧
    (∀ env3,
      (cmdDisconnect (cmdConnect idleState authFailEnv connectReq).2.1
        env3).2.vpnProcess = none) :=
  c9_auth_failure_keeps_handle idleState authFailEnv connectReq 42 rfl rfl
    (by decide) (by decide) rfl (by decide)

/-- Claim C10: a disconnect that resolves a target pid always clears
the in-memory handle and the pid file before returning — also when the
kill fails within its timeout, in which case the response is
`success=false` with the failed-to-stop error. -/
theorem c10_disconnect_clears_state (st : DaemonState) (env : SysEnv) (p : Nat)
    (h : resolvePid st env = some p) :
    (cmdDisconnect st env).2.vpnProcess = none ∧
    (cmdDisconnect st env).2.pidFile = none ∧
    (env.kill p = true →
      (cmdDisconnect st env).1 = ⟨true, none, none, none, none⟩) ∧
    (env.kill p = false →
      (cmdDisconnect st env).1 = Response.fail "Failed to stop process") := by
  unfold cmdDisconnect
  rw [h]
  by_cases hk : env.kill p <;> simp [hk]

theorem c10_disconnect_clears_state_witness :
    (cmdDisconnect busyState stubbornEnv).2.vpnProcess = none ∧
    (cmdDisconnect busyState stubbornEnv).2.pidFile = none ∧
    (stubbornEnv.kill 7 = true →
      (cmdDisconnect busyState stubbornEnv).1 = ⟨true, none, none, none, none⟩) ∧
    (stubbornEnv.kill 7 = false →
      (cmdDisconnect busyState stubbornEnv).1 =
        Response.fail "Failed to stop process") :=
  c10_disconnect_clears_state busyState stubbornEnv 7 rfl

/-- Claim C7: every string matching the hostname grammar of
`RE_SERVER` (first and last characters alphanumeric, middle characters
alphanumeric, dot or hyphen) of length at most 253 is accepted by
server validation: `validate_request` on a connect request carrying it
never rejects on the server field. -/
theorem c7_hostname_grammar_accepted (r : RawRequest) (s : String)
    (hc : r.command = some "connect") (hs : r.server = some s)
    (hg : serverCore s.data = true) (hlen : s.length ≤ MAX_SERVER_LEN) :
    validate_request r ≠ (false, some "Invalid server format") ∧
    validate_request r ≠ (false, some "Missing 'server' parameter") := by
  have hne : ¬ s = "" := by
    intro h0
    rw [h0] at hg
    exact absurd hg (by decide)
  have hm : reServerMatch s = true := by
    unfold reServerMatch pyDollarMatch
    rw [hg]
    rfl
  have hdl : decide (s.length > MAX_SERVER_LEN) = false :=
    decide_eq_false (Nat.not_lt.mpr hlen)
  have hok : (decide (s.length > MAX_SERVER_LEN) || !reServerMatch s) = false := by
    rw [hdl, hm]
    rfl
  unfold validate_request
  rw [hc, hs]
  simp only [Option.getD_some, if_neg hne, hok, Bool.false_eq_true, if_false]
  have hcmd : (decide (("connect" : String) = "") ||
      !(VALID_COMMANDS.contains "connect")) = false := by decide
  simp only [hcmd, Bool.false_eq_true, if_false,
    if_pos (rfl : ("connect" : String) = "connect")]
  constructor <;> intro hbad <;>
    (repeat' split at hbad) <;> simp_all

theorem c7_hostname_grammar_accepted_witness :
    validate_request connectReq ≠ (false, some "Invalid server format") ∧
    validate_request connectReq ≠ (false, some "Missing 'server' parameter") :=
  c7_hostname_grammar_accepted connectReq "vpn.example.com" rfl rfl
    (by decide) (by decide)

end MsSso






